import Mathlib

/-!
Shallow embedding of `app/utils/gitmastery.py`: the sparse-clone exercises
fetcher (`ExercisesRepo`) and the dynamic script namespace (`Namespace`).

Python state (the file system, `sys.modules`, `sys.path`,
`sys.dont_write_bytecode`, the git working directory) is passed explicitly.
Fallible operations return `Except PyError`.    The semantics of the external
`git sparse-checkout set` call is modelled as: replace the sparse pattern with
exactly the requested path and materialize exactly the remote files under that
path (this is the documented behavior of the `set` subcommand that the code
invokes with `--skip-checks`).
-/

namespace Gitmastery

/-- Character-list based prefix test, mirroring Python's `str.startswith`. -/
def strStartsWith (s pre : String) : Bool := pre.data.isPrefixOf s.data

/-- Abstract Python runtime values (enough to populate parameter dictionaries
and function results). -/
inductive Value where
  | vnone
  | vbool (b : Bool)
  | vint (n : Int)
  | vstr (s : String)
  deriving DecidableEq, Repr

/-- Result of reading a file: `open(..., "rb")` yields bytes, `open(..., "rt")`
yields text.  Contents are abstracted as strings either way. -/
inductive FileContents where
  | binary (s : String)
  | text (s : String)
  deriving DecidableEq, Repr

/-- Underlying string of either kind of file contents. -/
def FileContents.str : FileContents → String
  | .binary s => s
  | .text s => s

/-- Python exceptions relevant to this module.

`fileNotFound` is the `FileNotFoundError` raised by `open` (the spec's
FileReadFailure); `cloneFailure` covers `Repo.clone_from` errors;
`typeErrorNotCallable` is the `TypeError` raised by `inspect.signature` on a
non-callable; `typeErrorMissingArg` is the `TypeError` raised when a call is
missing a required argument; `raised` is an arbitrary exception raised by
fetched script code and carries only the script's own message.

`scriptExecutionFailure` is modelled from the spec's words (§7's taxonomy:
"ScriptExecutionFailure ... surfaced with the script path attached"): an error
wrapper carrying the offending script path.  It exists so that the claim
"`load` fails with a ScriptExecutionFailure annotated with the script's path"
can be stated and compared against what the code actually produces; no
definition translated from the source ever constructs it. -/
inductive PyError where
  | fileNotFound (path : String)
  | cloneFailure
  | typeErrorNotCallable (name : String)
  | typeErrorMissingArg (fname arg : String)
  | raised (msg : String)
  | scriptExecutionFailure (path : String) (msg : String)
  deriving DecidableEq, Repr

/-- The remote exercises repository: a finite map from file path to contents. -/
abbrev Remote := List (String × String)

/-- `underPath pat p` holds when file `p` is materialized by a sparse checkout
of `pat`: `p` is `pat` itself or lies below the directory `pat`. -/
def underPath (pat p : String) : Bool := p == pat || strStartsWith p (pat ++ "/")

/-- Files of the remote that a sparse checkout of `pat` materializes. -/
def Remote.filesUnder (r : Remote) (pat : String) : List (String × String) :=
  r.filter (fun kv => underPath pat kv.1)

/-- A live clone handle (`self.__repo` once the clone succeeded): the remote it
is bound to, the current sparse-checkout pattern, and the files currently
materialized in the working directory. -/
structure CloneHandle where
  remote : Remote
  sparsePattern : List String
  workingDir : List (String × String)
  deriving Repr

/-- `ExercisesRepo.checkout`: `self.repo.git.sparse_checkout("set",
"--skip-checks", file_path)`.  The `set` subcommand replaces the sparse
pattern with exactly the requested path; the working directory afterwards
holds exactly the remote files under that path.  With `--skip-checks` the call
succeeds whether or not the path exists in the remote. -/
def CloneHandle.checkout (c : CloneHandle) (file_path : String) : CloneHandle :=
  { c with sparsePattern := [file_path],
           workingDir := c.remote.filesUnder file_path }

/-- `os.path.exists(working_dir / p)`: `p` exists on disk when it is a
materialized file or an (ancestor) directory of a materialized file. -/
def CloneHandle.existsOnDisk (c : CloneHandle) (p : String) : Bool :=
  c.workingDir.any (fun kv => underPath p kv.1)

/-- `ExercisesRepo.has_file`: checkout the path, then report whether it exists
on disk. -/
def CloneHandle.has_file (c : CloneHandle) (file_path : String) :
    CloneHandle × Bool :=
  let c1 := c.checkout file_path
  (c1, c1.existsOnDisk file_path)

/-- `ExercisesRepo.fetch_file_contents`: checkout the path, then `open` it in
binary or text mode and read it whole.  `open` raises `FileNotFoundError` when
the path is not a file on disk. -/
def CloneHandle.fetch_file_contents (c : CloneHandle) (file_path : String)
    (is_binary : Bool) : CloneHandle × Except PyError FileContents :=
  let c1 := c.checkout file_path
  match c1.workingDir.lookup file_path with
  | none => (c1, .error (.fileNotFound file_path))
  | some s => (c1, .ok (if is_binary then .binary s else .text s))

/-- The host file system, restricted to which ephemeral working directories
currently exist on disk. -/
structure FileSystem where
  dirs : List String
  deriving DecidableEq, Repr

/-- `tempfile.TemporaryDirectory.cleanup()`: removes the directory if it still
exists and is a silent no-op otherwise (the finalizer-detach/exists guard in
the standard library makes a second cleanup not raise). -/
def cleanupTempDir (fs : FileSystem) (dname : String) : FileSystem :=
  { fs with dirs := fs.dirs.filter (fun d => d != dname) }

/-- `ExercisesRepo` instance state: `self.__repo` and `self.__temp_dir`
(identified by its directory name), both `None` after `__init__`. -/
structure ExercisesRepo where
  repo : Option CloneHandle
  temp_dir : Option String

/-- `ExercisesRepo.__init__`: both fields start as `None`. -/
def ExercisesRepo.init : ExercisesRepo := ⟨none, none⟩

/-- `ExercisesRepo.__enter__`: create the ephemeral temporary directory named
`dname`, then attempt the shallow sparse clone.  `cloneResult` abstracts the
network: `Repo.clone_from` either raises (after the directory was already
created — `self.__repo` stays `None` and the exception propagates) or returns
a handle. -/
def ExercisesRepo.enterRepo (er : ExercisesRepo) (fs : FileSystem)
    (dname : String) (cloneResult : Except Unit CloneHandle) :
    ExercisesRepo × FileSystem × Except PyError Unit :=
  let er1 : ExercisesRepo := { er with temp_dir := some dname }
  let fs1 : FileSystem := { fs with dirs := dname :: fs.dirs }
  match cloneResult with
  | .error _ => (er1, fs1, .error .cloneFailure)
  | .ok h => ({ er1 with repo := some h }, fs1, .ok ())

/-- `ExercisesRepo.__exit__` (release): if a temporary directory was created,
clean it up; otherwise do nothing.  Total — it never raises. -/
def ExercisesRepo.exitRepo (er : ExercisesRepo) (fs : FileSystem) : FileSystem :=
  match er.temp_dir with
  | none => fs
  | some d => cleanupTempDir fs d

/-- A `with ExercisesRepo() as repo:` block: Python runs `__exit__` on every
exit path of the block body — normal return and raised exception alike.  The
body is abstracted as a function of the entered fetcher returning either a
value or a raised error. -/
def withExercisesRepo (fs : FileSystem) (dname : String)
    (cloneResult : Except Unit CloneHandle)
    (body : ExercisesRepo → Except PyError Value) :
    FileSystem × Except PyError Value :=
  match ExercisesRepo.init.enterRepo fs dname cloneResult with
  | (_, fs1, .error e) => (fs1, .error e)
  | (er1, fs1, .ok ()) => (er1.exitRepo fs1, body er1)

/-- Declared shape and behavior of a Python function bound at a script's top
level: its declared parameter names, the subset of them that carries a
default value, and a semantic body mapping the keyword arguments actually
received to a returned value or a raised exception message. -/
structure PyFunc where
  params : List String
  defaults : List String
  body : List (String × Value) → Except String Value

/-- A top-level binding in a script namespace: a function, or a plain
non-callable value (variable, constant). -/
inductive Binding where
  | func (f : PyFunc)
  | data (v : Value)

/-- Python call `f(**kwargs)`: raises `TypeError` when some declared
parameter without a default is missing from the keyword arguments, otherwise
runs the body; an exception raised inside the body propagates. -/
def PyFunc.call (f : PyFunc) (fname : String)
    (kwargs : List (String × Value)) : Except PyError Value :=
  match f.params.find?
      (fun p => !(f.defaults.contains p) && (kwargs.lookup p).isNone) with
  | some missing => .error (.typeErrorMissingArg fname missing)
  | none =>
    match f.body kwargs with
    | .ok v => .ok v
    | .error m => .error (.raised m)

/-- `Namespace.__init__`: wraps the binding dictionary produced by executing
a script (`self.namespace`, here `ns` since `namespace` is reserved). -/
structure Namespace where
  ns : List (String × Binding)

/-- `Namespace.execute_function`, with `sys.dont_write_bytecode` threaded
explicitly (the only process-global state the method touches).

Line by line from the source: an absent name clears the flag and returns
`None`; for a present name, `inspect.signature` raises `TypeError` when the
binding is not callable (the flag stays as it was, because the clearing
assignment further down is never reached); otherwise the caller's parameter
bag is filtered down to the keys among the declared parameter names and the
function is called on that subset; if the call raises, the exception
propagates with the flag unchanged; on success the flag is cleared and the
function's result is returned unmodified. -/
def Namespace.execute_function (self : Namespace) (dwb : Bool)
    (function_name : String) (params : List (String × Value)) :
    Except PyError (Option Value) × Bool :=
  match self.ns.lookup function_name with
  | none => (.ok none, false)
  | some (.data _) => (.error (.typeErrorNotCallable function_name), dwb)
  | some (.func f) =>
    let valid_params := params.filter (fun kv => f.params.contains kv.1)
    match f.call function_name valid_params with
    | .error e => (.error e, dwb)
    | .ok v => (.ok (some v), false)

/-- Outcomes of `n` successive `execute_function` calls with the same name
and parameter bag against the same namespace, threading the bytecode flag
from call to call. -/
def Namespace.execute_function_iter (self : Namespace) (dwb : Bool)
    (function_name : String) (params : List (String × Value)) :
    Nat → List (Except PyError (Option Value)) × Bool
  | 0 => ([], dwb)
  | n + 1 =>
    let step := self.execute_function dwb function_name params
    let rest := self.execute_function_iter step.2 function_name params n
    (step.1 :: rest.1, rest.2)

/-- The helper-module file names fetched on every load
(`EXERCISE_UTILS_FILES` in the source). -/
def EXERCISE_UTILS_FILES : List String :=
  ["__init__", "cli", "git", "file", "gitmastery", "github_cli", "test"]

/-- Remote paths of the helper-module sources
(`f"exercise_utils/{filename}.py"`). -/
def helperPaths : List String :=
  EXERCISE_UTILS_FILES.map (fun f => "exercise_utils/" ++ f ++ ".py")

/-- Membership test of a `sys.modules` key in the helper-module namespace:
`key == "exercise_utils" or key.startswith("exercise_utils.")`. -/
def isExerciseUtilsKey (k : String) : Bool :=
  k == "exercise_utils" || strStartsWith k "exercise_utils."

/-- Deleting every helper-module key from the module registry (the
`modules_to_remove` list comprehension followed by the `del` loop), keeping
all other entries. -/
def purgeExerciseUtils (modules : List String) : List String :=
  modules.filter (fun k => !(isExerciseUtilsKey k))

/-- Process-global interpreter state touched by `load_file_as_namespace`:
the keys of `sys.modules`, the entries of `sys.path`, and the
`sys.dont_write_bytecode` flag. -/
structure SysState where
  modules : List String
  syspath : List String
  dont_write_bytecode : Bool

/-- Observable effect of `exec`uting a fetched script's source as top-level
code: the module-registry keys its imports register, and either a raised
exception message or the top-level bindings left in the namespace
dictionary. -/
structure ExecEffect where
  addedModules : List String
  outcome : Except String (List (String × Binding))

/-- Result of one `load_file_as_namespace` call: final interpreter state,
final clone handle, the module-registry keys at the moment `exec` began
(`none` when a fetch failed before `exec` was reached), and the returned
namespace or the propagated exception. -/
structure LoadResult where
  st : SysState
  clone : CloneHandle
  preExecModules : Option (List String)
  result : Except PyError Namespace

/-- Sequential fetch of a list of remote paths, stopping at the first
failure: the loop writing each helper-module source into the throwaway
package directory (`ensure_str` is the identity on the text contents
modelled here; the writes themselves are only observable through the
script's imports, abstracted by the execution effect). -/
def fetchFiles (c : CloneHandle) :
    List String → CloneHandle × Except PyError (List String)
  | [] => (c, .ok [])
  | p :: rest =>
    match c.fetch_file_contents p false with
    | (c1, .error e) => (c1, .error e)
    | (c1, .ok fc) =>
      match fetchFiles c1 rest with
      | (c2, .error e) => (c2, .error e)
      | (c2, .ok cs) => (c2, .ok (fc.str :: cs))

/-- `Namespace.load_file_as_namespace`.  `tmpdir` names the throwaway
directory produced by `tempfile.TemporaryDirectory()`; `scriptSem` gives the
dynamic behavior of `exec` on the fetched script source (code the tool's
authors do not control).  Step by step from the source: set
`sys.dont_write_bytecode`; fetch the script text (a failure propagates);
purge the helper-module keys from `sys.modules`; fetch the helper-module
sources into the throwaway package (a failure propagates); push `tmpdir`
onto `sys.path`; `exec` the script; in the `finally` block remove `tmpdir`
from `sys.path` and purge the helper-module keys again; an exception raised
by the script then propagates as the raw exception (the `try` has no
`except` clause), otherwise the flag is cleared and the collected namespace
is returned. -/
def Namespace.load_file_as_namespace (st : SysState) (c : CloneHandle)
    (tmpdir : String) (scriptSem : String → ExecEffect)
    (file_path : String) : LoadResult :=
  let st0 : SysState := { st with dont_write_bytecode := true }
  match c.fetch_file_contents file_path false with
  | (c1, .error e) => ⟨st0, c1, none, .error e⟩
  | (c1, .ok pyFile) =>
    let st1 : SysState := { st0 with modules := purgeExerciseUtils st0.modules }
    match fetchFiles c1 helperPaths with
    | (c2, .error e) => ⟨st1, c2, none, .error e⟩
    | (c2, .ok _) =>
      let st2 : SysState := { st1 with syspath := tmpdir :: st1.syspath }
      let eff := scriptSem pyFile.str
      let st3 : SysState := { st2 with modules := st2.modules ++ eff.addedModules }
      let st4 : SysState :=
        { st3 with syspath := st3.syspath.erase tmpdir,
                   modules := purgeExerciseUtils st3.modules }
      match eff.outcome with
      | .error m => ⟨st4, c2, some st2.modules, .error (.raised m)⟩
      | .ok bindings =>
        ⟨{ st4 with dont_write_bytecode := false }, c2, some st2.modules,
          .ok ⟨bindings⟩⟩

/-- Modelled from the spec: an exception value is "a ScriptExecutionFailure
annotated with the offending script's path" when it is the wrapper error
carrying that path (§7: "surfaced with the script path attached"). -/
def annotatedWithScriptPath (e : PyError) (path : String) : Prop :=
  ∃ msg, e = PyError.scriptExecutionFailure path msg

/-- A small concrete exercises remote for concrete evaluations: one exercise
script plus all seven helper-module sources. -/
def sampleRemote : Remote :=
  ("ex.py", "raise Exception") :: helperPaths.map (fun p => (p, ""))

/-- A fresh clone handle bound to the sample remote. -/
def sampleClone : CloneHandle := ⟨sampleRemote, [], []⟩

/-- An interpreter state carrying stale helper-module registry entries left
by an earlier load in the same long-lived process. -/
def sampleSt : SysState :=
  ⟨["exercise_utils", "exercise_utils.git", "os"], ["/lib"], false⟩

/-- Behavior of a script whose top-level code imports helper modules and
then raises. -/
def raisingSem : String → ExecEffect :=
  fun _ => ⟨["exercise_utils", "exercise_utils.test"], .error "boom"⟩

/-- Behavior of a script whose top-level code imports a helper module and
finishes normally, binding nothing. -/
def okSem : String → ExecEffect :=
  fun _ => ⟨["exercise_utils.cli"], .ok []⟩

/-- A hook with one required parameter, as in the spec's example
(`def verify(repo_path): ...`). -/
def sampleVerify : PyFunc :=
  ⟨["repo_path"], [],
   fun kwargs => .ok (.vbool (kwargs.lookup "repo_path" == some (.vstr "/tmp/x")))⟩

/-- A loaded namespace with one hook and one non-callable top-level
constant. -/
def sampleNamespace : Namespace :=
  ⟨[("verify", .func sampleVerify), ("x_const", .data (.vint 3))]⟩

end Gitmastery

namespace Gitmastery

/-! Helper lemmas about lookups in filtered association lists. -/

theorem lookup_filter_key_true {β : Type} (l : List (String × β))
    (q : String → Bool) (a : String) (h : q a = true) :
    (l.filter (fun kv => q kv.1)).lookup a = l.lookup a := by
  induction l with
  | nil => rfl
  | cons kv t ih =>
    obtain ⟨k, v⟩ := kv
    by_cases hak : a = k
    · subst hak
      simp [List.filter_cons, h, List.lookup]
    · have hbeq : (a == k) = false := by simpa using hak
      by_cases hk : q k
      · simp [List.filter_cons, hk, List.lookup, hbeq, ih]
      · simp only [Bool.not_eq_true] at hk
        simp [List.filter_cons, hk, List.lookup, hbeq, ih]

theorem lookup_filter_key_false {β : Type} (l : List (String × β))
    (q : String → Bool) (a : String) (h : q a = false) :
    (l.filter (fun kv => q kv.1)).lookup a = none := by
  induction l with
  | nil => rfl
  | cons kv t ih =>
    obtain ⟨k, v⟩ := kv
    by_cases hak : a = k
    · subst hak
      simp [List.filter_cons, h, List.lookup, ih]
    · have hbeq : (a == k) = false := by simpa using hak
      by_cases hk : q k
      · simp [List.filter_cons, hk, List.lookup, hbeq, ih]
      · simp only [Bool.not_eq_true] at hk
        simp [List.filter_cons, hk, List.lookup, hbeq, ih]

/-- Looking up a path in the working directory materialized by a checkout of
that same path agrees with looking it up in the remote. -/
theorem lookup_filesUnder_self (r : Remote) (p : String) :
    (r.filesUnder p).lookup p = r.lookup p := by
  apply lookup_filter_key_true
  simp [underPath]

/-- A checkout keeps the clone bound to the same remote. -/
theorem checkout_remote (c : CloneHandle) (p : String) :
    (c.checkout p).remote = c.remote := rfl

/-- Fetching a path that is a file of the remote succeeds with its contents
in the requested mode, leaving the clone in the checked-out state. -/
theorem fetch_file_contents_ok (c : CloneHandle) (p s : String) (b : Bool)
    (h : c.remote.lookup p = some s) :
    c.fetch_file_contents p b =
      (c.checkout p, .ok (if b then .binary s else .text s)) := by
  have hw : (c.checkout p).workingDir.lookup p = some s := by
    show (c.remote.filesUnder p).lookup p = some s
    rw [lookup_filesUnder_self]
    exact h
  simp [CloneHandle.fetch_file_contents, hw]

/-- Fetching a path that is not a file of the remote raises the read
failure. -/
theorem fetch_file_contents_err (c : CloneHandle) (p : String) (b : Bool)
    (h : c.remote.lookup p = none) :
    c.fetch_file_contents p b =
      (c.checkout p, .error (.fileNotFound p)) := by
  have hw : (c.checkout p).workingDir.lookup p = none := by
    show (c.remote.filesUnder p).lookup p = none
    rw [lookup_filesUnder_self]
    exact h
  simp [CloneHandle.fetch_file_contents, hw]

/-- When every requested path is a file of the remote, the sequential fetch
succeeds and the final clone is still bound to the same remote. -/
theorem fetchFiles_ok (paths : List String) (c : CloneHandle)
    (h : ∀ p ∈ paths, (c.remote.lookup p).isSome = true) :
    ∃ c2 cs, fetchFiles c paths = (c2, .ok cs) ∧ c2.remote = c.remote := by
  induction paths generalizing c with
  | nil => exact ⟨c, [], rfl, rfl⟩
  | cons p rest ih =>
    have hp : (c.remote.lookup p).isSome = true := h p (by simp)
    obtain ⟨s, hs⟩ := Option.isSome_iff_exists.mp hp
    have hrest : ∀ q ∈ rest, ((c.checkout p).remote.lookup q).isSome = true := by
      intro q hq
      rw [checkout_remote]
      exact h q (by simp [hq])
    obtain ⟨c2, cs, hfc, hrem⟩ := ih (c.checkout p) hrest
    refine ⟨c2, (FileContents.text s).str :: cs, ?_, ?_⟩
    · simp [fetchFiles, fetch_file_contents_ok c p s false hs, hfc]
    · rw [hrem, checkout_remote]

/-- Every purge leaves no helper-module key behind. -/
theorem purge_no_eu (modules : List String) :
    ∀ k ∈ purgeExerciseUtils modules, isExerciseUtilsKey k = false := by
  intro k hk
  rw [purgeExerciseUtils, List.mem_filter] at hk
  simpa using hk.2

/-- Characterization of a load whose two fetch phases succeed (the script is
a file of the remote and so is every helper-module source): the load reaches
the `exec`, the registry at that moment is the purged registry, the
`finally` block restores the search path and purges again, and the outcome
and final bytecode flag follow the script's behavior. -/
theorem load_reached_exec (st : SysState) (c : CloneHandle) (tmpdir : String)
    (scriptSem : String → ExecEffect) (file_path py : String)
    (hpy : c.remote.lookup file_path = some py)
    (hh : ∀ q ∈ helperPaths, (c.remote.lookup q).isSome = true) :
    ∃ c2 : CloneHandle,
      Namespace.load_file_as_namespace st c tmpdir scriptSem file_path =
        match (scriptSem py).outcome with
        | .error m =>
          ⟨⟨purgeExerciseUtils
              (purgeExerciseUtils st.modules ++ (scriptSem py).addedModules),
            st.syspath, true⟩, c2,
            some (purgeExerciseUtils st.modules), .error (.raised m)⟩
        | .ok bindings =>
          ⟨⟨purgeExerciseUtils
              (purgeExerciseUtils st.modules ++ (scriptSem py).addedModules),
            st.syspath, false⟩, c2,
            some (purgeExerciseUtils st.modules), .ok ⟨bindings⟩⟩ := by
  have hfc : c.fetch_file_contents file_path false =
      (c.checkout file_path, .ok (.text py)) := by
    simpa using fetch_file_contents_ok c file_path py false hpy
  have hh1 : ∀ q ∈ helperPaths,
      (((c.checkout file_path).remote).lookup q).isSome = true := by
    intro q hq
    rw [checkout_remote]
    exact hh q hq
  obtain ⟨c2, cs, hff, _⟩ := fetchFiles_ok helperPaths (c.checkout file_path) hh1
  refine ⟨c2, ?_⟩
  rw [Namespace.load_file_as_namespace]
  rw [hfc]
  simp only [hff, FileContents.str, List.erase_cons_head]

/-! Claims. -/

/-- C5: release is guaranteed to run on every exit path of the acquisition
scope and is idempotent: after a `with` block whose body either returns or
raises, the ephemeral working directory is gone; calling release twice on
the same fetcher gives the same file system as calling it once (and release
is total, so it never raises); and calling release after an acquire whose
clone step failed — the ephemeral directory having already been created —
leaves no residual ephemeral working directory. -/
theorem C5_release_guaranteed_idempotent (fs : FileSystem) (dname : String)
    (h : CloneHandle) (body : ExercisesRepo → Except PyError Value) :
    (dname ∉ (withExercisesRepo fs dname (.ok h) body).1.dirs) ∧
    (∀ er : ExercisesRepo, ∀ fs' : FileSystem,
      er.exitRepo (er.exitRepo fs') = er.exitRepo fs') ∧
    (dname ∉
      (((ExercisesRepo.init.enterRepo fs dname (.error ())).1).exitRepo
        ((ExercisesRepo.init.enterRepo fs dname (.error ())).2.1)).dirs) := by
  refine ⟨?_, ?_, ?_⟩
  · simp [withExercisesRepo, ExercisesRepo.enterRepo, ExercisesRepo.init,
      ExercisesRepo.exitRepo, cleanupTempDir, List.mem_filter]
  · intro er fs'
    cases her : er.temp_dir with
    | none => simp [ExercisesRepo.exitRepo, her]
    | some d =>
      simp [ExercisesRepo.exitRepo, her, cleanupTempDir, List.filter_filter,
        Bool.and_self]
  · simp [ExercisesRepo.enterRepo, ExercisesRepo.init, ExercisesRepo.exitRepo,
      cleanupTempDir, List.mem_filter]

/-- C5 witness: a concrete acquisition scope over the sample clone, one
pre-existing directory on disk, and a body that returns normally. -/
theorem C5_release_guaranteed_idempotent_witness :
    ("d1" ∉ (withExercisesRepo ⟨["d0"]⟩ "d1" (.ok sampleClone)
      (fun _ => .ok .vnone)).1.dirs) ∧
    (∀ er : ExercisesRepo, ∀ fs' : FileSystem,
      er.exitRepo (er.exitRepo fs') = er.exitRepo fs') ∧
    ("d1" ∉
      (((ExercisesRepo.init.enterRepo ⟨["d0"]⟩ "d1" (.error ())).1).exitRepo
        ((ExercisesRepo.init.enterRepo ⟨["d0"]⟩ "d1"
          (.error ())).2.1)).dirs) :=
  C5_release_guaranteed_idempotent ⟨["d0"]⟩ "d1" sampleClone
    (fun _ => .ok .vnone)

/-- C6: for a path absent from the remote repository, `has_file` returns
`false` without raising: the checkout itself succeeds (it is a total
operation, matching `--skip-checks`), and the answer is read off the disk
state the checkout left behind. -/
theorem C6_has_file_absent_returns_false (c : CloneHandle) (p : String)
    (h : ∀ kv ∈ c.remote, underPath p kv.1 = false) :
    (c.has_file p).2 = false ∧ (c.has_file p).1 = c.checkout p := by
  refine ⟨?_, rfl⟩
  have hnil : c.remote.filter (fun kv => underPath p kv.1) = [] := by
    rw [List.filter_eq_nil_iff]
    intro kv hkv
    simp [h kv hkv]
  show ((c.checkout p).workingDir.any (fun kv => underPath p kv.1)) = false
  show ((c.remote.filter (fun kv => underPath p kv.1)).any
    (fun kv => underPath p kv.1)) = false
  rw [hnil]
  rfl

/-- C6 witness: the sample remote has no file at or under `"missing.py"`, so
`has_file` reports `false` there and leaves the clone in the checked-out
state. -/
theorem C6_has_file_absent_returns_false_witness :
    (sampleClone.has_file "missing.py").2 = false ∧
    (sampleClone.has_file "missing.py").1 = sampleClone.checkout "missing.py" :=
  C6_has_file_absent_returns_false sampleClone "missing.py" (by decide)

/-- C7: `checkout` replaces the sparse pattern rather than adding to it:
checking out `p` after any earlier checkout gives exactly the state of
checking out `p` directly; the pattern afterwards is exactly `[p]`; the
working directory afterwards is exactly the remote files under `p`; and a
path not under `p` — for instance one materialized by an earlier checkout —
is no longer a file on disk. -/
theorem C7_checkout_replaces_sparse_pattern (c : CloneHandle)
    (p q x : String) (hx : underPath p x = false) :
    ((c.checkout q).checkout p = c.checkout p) ∧
    ((c.checkout p).sparsePattern = [p]) ∧
    ((c.checkout p).workingDir = c.remote.filesUnder p) ∧
    ((c.checkout p).workingDir.lookup x = none) := by
  refine ⟨rfl, rfl, rfl, ?_⟩
  show (c.remote.filter (fun kv => underPath p kv.1)).lookup x = none
  exact lookup_filter_key_false c.remote (fun s => underPath p s) x hx

/-- C7 witness: checking out the helper directory and then the exercise
script leaves exactly the script materialized; the helper file from the
earlier checkout is gone. -/
theorem C7_checkout_replaces_sparse_pattern_witness :
    ((sampleClone.checkout "exercise_utils").checkout "ex.py" =
      sampleClone.checkout "ex.py") ∧
    ((sampleClone.checkout "ex.py").sparsePattern = ["ex.py"]) ∧
    ((sampleClone.checkout "ex.py").workingDir =
      sampleRemote.filesUnder "ex.py") ∧
    ((sampleClone.checkout "ex.py").workingDir.lookup
      "exercise_utils/cli.py" = none) :=
  C7_checkout_replaces_sparse_pattern sampleClone "ex.py" "exercise_utils"
    "exercise_utils/cli.py" (by decide)

/-- C8: `fetch_file_contents` first performs the checkout of the requested
path and then returns the file's whole contents, as bytes in binary mode and
as text otherwise; it raises the read failure exactly when the path is not a
file on disk after the checkout, which for a given remote happens exactly
when the path is not a file of the remote. -/
theorem C8_fetch_file_contents_contract (c : CloneHandle) (p : String)
    (b : Bool) :
    ((c.fetch_file_contents p b).1 = c.checkout p) ∧
    (∀ s, c.remote.lookup p = some s →
      (c.fetch_file_contents p b).2 =
        .ok (if b then .binary s else .text s)) ∧
    ((c.fetch_file_contents p b).2 = .error (.fileNotFound p) ↔
      (c.checkout p).workingDir.lookup p = none) ∧
    ((c.checkout p).workingDir.lookup p = none ↔
      c.remote.lookup p = none) := by
  have hw : (c.checkout p).workingDir.lookup p = c.remote.lookup p :=
    lookup_filesUnder_self c.remote p
  refine ⟨?_, ?_, ?_, by rw [hw]⟩
  · cases hl : (c.checkout p).workingDir.lookup p <;>
      simp [CloneHandle.fetch_file_contents, hl]
  · intro s hs
    rw [fetch_file_contents_ok c p s b hs]
  · cases hl : (c.checkout p).workingDir.lookup p <;>
      simp [CloneHandle.fetch_file_contents, hl]

/-- C8 witness: fetching the sample script in text mode returns its full
source text, and fetching a path that is no file of the remote raises the
read failure. -/
theorem C8_fetch_file_contents_contract_witness :
    (sampleClone.fetch_file_contents "ex.py" false).2 =
      .ok (.text "raise Exception") ∧
    (sampleClone.fetch_file_contents "missing.py" false).2 =
      .error (.fileNotFound "missing.py") := by
  constructor
  · simpa using
      (C8_fetch_file_contents_contract sampleClone "ex.py" false).2.1
        "raise Exception" rfl
  · exact ((C8_fetch_file_contents_contract sampleClone "missing.py"
      false).2.2.1).mpr (by decide)

/-- C2: executing a function name not bound in the namespace returns the
no-result outcome (`None`) rather than raising, and every one of arbitrarily
many repeated calls with that absent name returns the same no-result
outcome. -/
theorem C2_execute_function_absent_returns_none (self : Namespace)
    (dwb : Bool) (function_name : String) (params : List (String × Value))
    (n : Nat) (h : self.ns.lookup function_name = none) :
    self.execute_function dwb function_name params = (.ok none, false) ∧
    (self.execute_function_iter dwb function_name params n).1 =
      List.replicate n (.ok none) := by
  have hstep : ∀ d : Bool,
      self.execute_function d function_name params = (.ok none, false) := by
    intro d
    simp [Namespace.execute_function, h]
  refine ⟨hstep dwb, ?_⟩
  induction n generalizing dwb with
  | zero => rfl
  | succ k ih =>
    simp only [Namespace.execute_function_iter, hstep, List.replicate_succ]
    exact congrArg (List.cons _) (ih false)

/-- C2 witness: the sample namespace binds no `"setup"` hook, so one call
and each of three repeated calls return the no-result outcome. -/
theorem C2_execute_function_absent_returns_none_witness :
    sampleNamespace.execute_function true "setup" [] = (.ok none, false) ∧
    (sampleNamespace.execute_function_iter true "setup" [] 3).1 =
      List.replicate 3 (.ok none) :=
  C2_execute_function_absent_returns_none sampleNamespace true "setup" [] 3
    rfl

/-- C3: invoking a bound function passes exactly the subset of the parameter
bag whose keys are declared parameter names: an extra key the function never
declared does not change the outcome at all, and whenever every required
(default-free) parameter is among the remaining keys the invocation
happens and the function's return value is passed back unmodified (as a
present result, with the bytecode flag cleared). -/
theorem C3_execute_function_filters_parameters (self : Namespace)
    (dwb : Bool) (function_name k : String) (v : Value) (f : PyFunc)
    (params : List (String × Value))
    (hf : self.ns.lookup function_name = some (.func f))
    (hk : f.params.contains k = false)
    (hreq : ∀ p ∈ f.params, f.defaults.contains p = true ∨
      ((params.filter (fun kv => f.params.contains kv.1)).lookup p).isSome
        = true) :
    (self.execute_function dwb function_name ((k, v) :: params) =
      self.execute_function dwb function_name params) ∧
    (∀ r, f.body (params.filter (fun kv => f.params.contains kv.1)) = .ok r →
      self.execute_function dwb function_name params =
        (.ok (some r), false)) := by
  have hfind : f.params.find? (fun p => !(f.defaults.contains p) &&
      ((params.filter (fun kv => f.params.contains kv.1)).lookup p).isNone)
        = none := by
    rw [List.find?_eq_none]
    intro p hp hcontra
    rcases hreq p hp with hd | hs
    · rw [hd] at hcontra
      simp at hcontra
    · obtain ⟨val, hval⟩ := Option.isSome_iff_exists.mp hs
      rw [hval] at hcontra
      simp at hcontra
  have hfilter : List.filter (fun kv => f.params.contains kv.1)
      ((k, v) :: params) =
      List.filter (fun kv => f.params.contains kv.1) params := by
    have hk' : k ∉ f.params := by simpa using hk
    rw [List.filter_cons]
    simp [hk']
  constructor
  · simp only [Namespace.execute_function, hf]
    rw [hfilter]
  · intro r hr
    simp only [Namespace.execute_function, hf, PyFunc.call, hfind, hr]

/-- C3 witness: calling the sample `verify` hook with the extra key
`"unused"` gives the same outcome as calling it without, and with its one
required parameter supplied the hook's return value comes back unmodified. -/
theorem C3_execute_function_filters_parameters_witness :
    (sampleNamespace.execute_function true "verify"
        [("unused", .vint 1), ("repo_path", .vstr "/tmp/x")] =
      sampleNamespace.execute_function true "verify"
        [("repo_path", .vstr "/tmp/x")]) ∧
    (sampleNamespace.execute_function true "verify"
        [("repo_path", .vstr "/tmp/x")] =
      (.ok (some (.vbool true)), false)) := by
  have h := C3_execute_function_filters_parameters sampleNamespace true
    "verify" "unused" (.vint 1) sampleVerify
    [("repo_path", .vstr "/tmp/x")] rfl (by decide) (by decide)
  exact ⟨h.1, h.2 (.vbool true) rfl⟩

/-- C10: a name bound to a non-callable top-level value makes
`execute_function` raise the signature-inspection `TypeError` (leaving the
bytecode flag untouched) — it neither returns the no-result outcome nor the
bound value. -/
theorem C10_execute_function_non_callable_raises (self : Namespace)
    (dwb : Bool) (function_name : String) (params : List (String × Value))
    (v : Value) (h : self.ns.lookup function_name = some (.data v)) :
    self.execute_function dwb function_name params =
      (.error (.typeErrorNotCallable function_name), dwb) := by
  simp [Namespace.execute_function, h]

/-- C10 witness: `"x_const"` is bound to the integer `3` in the sample
namespace, and executing it raises the signature-inspection `TypeError`. -/
theorem C10_execute_function_non_callable_raises_witness :
    sampleNamespace.execute_function true "x_const" [] =
      (.error (.typeErrorNotCallable "x_const"), true) :=
  C10_execute_function_non_callable_raises sampleNamespace true "x_const" []
    (.vint 3) rfl

/-- C1: on every load whose fetch phases succeed — so that the script is
actually executed — the module registry holds no helper-module key at the
moment the execution starts, and, whether that execution returns or raises,
no helper-module key once the load has finished: the post-clean purge runs
on the failure path too. -/
theorem C1_load_purges_helper_module_registry (st : SysState)
    (c : CloneHandle) (tmpdir : String) (scriptSem : String → ExecEffect)
    (file_path py : String) (hpy : c.remote.lookup file_path = some py)
    (hh : ∀ q ∈ helperPaths, (c.remote.lookup q).isSome = true) :
    (∀ m, (Namespace.load_file_as_namespace st c tmpdir scriptSem
        file_path).preExecModules = some m →
      ∀ k ∈ m, isExerciseUtilsKey k = false) ∧
    (∀ k ∈ (Namespace.load_file_as_namespace st c tmpdir scriptSem
        file_path).st.modules, isExerciseUtilsKey k = false) := by
  obtain ⟨c2, hload⟩ :=
    load_reached_exec st c tmpdir scriptSem file_path py hpy hh
  cases ho : (scriptSem py).outcome with
  | error m =>
    rw [ho] at hload
    constructor
    · intro mm hmm
      rw [hload] at hmm
      simp only at hmm
      rw [← Option.some_inj.mp hmm]
      exact purge_no_eu st.modules
    · rw [hload]
      exact purge_no_eu _
  | ok bindings =>
    rw [ho] at hload
    constructor
    · intro mm hmm
      rw [hload] at hmm
      simp only at hmm
      rw [← Option.some_inj.mp hmm]
      exact purge_no_eu st.modules
    · rw [hload]
      exact purge_no_eu _

/-- C1 witness: loading the sample script — whose execution registers helper
modules and then raises — from a state carrying stale helper-module registry
entries reaches the execution with a clean registry and finishes with a
clean registry. -/
theorem C1_load_purges_helper_module_registry_witness :
    (∀ m, (Namespace.load_file_as_namespace sampleSt sampleClone "/tmp/t"
        raisingSem "ex.py").preExecModules = some m →
      ∀ k ∈ m, isExerciseUtilsKey k = false) ∧
    (∀ k ∈ (Namespace.load_file_as_namespace sampleSt sampleClone "/tmp/t"
        raisingSem "ex.py").st.modules, isExerciseUtilsKey k = false) :=
  C1_load_purges_helper_module_registry sampleSt sampleClone "/tmp/t"
    raisingSem "ex.py" "raise Exception" rfl (by decide)

/-- C9: a load whose fetch phases succeed sets `sys.dont_write_bytecode` at
its start and restores it to `False` only on the success path: if the
script's top-level execution raises, the load finishes with the flag still
`True`; if it returns, the load finishes with the flag `False`. -/
theorem C9_dont_write_bytecode_restored_only_on_success (st : SysState)
    (c : CloneHandle) (tmpdir : String) (scriptSem : String → ExecEffect)
    (file_path py : String) (hpy : c.remote.lookup file_path = some py)
    (hh : ∀ q ∈ helperPaths, (c.remote.lookup q).isSome = true) :
    (∀ m, (scriptSem py).outcome = .error m →
      (Namespace.load_file_as_namespace st c tmpdir scriptSem
        file_path).st.dont_write_bytecode = true) ∧
    (∀ bindings, (scriptSem py).outcome = .ok bindings →
      (Namespace.load_file_as_namespace st c tmpdir scriptSem
        file_path).st.dont_write_bytecode = false) := by
  obtain ⟨c2, hload⟩ :=
    load_reached_exec st c tmpdir scriptSem file_path py hpy hh
  constructor
  · intro m hm
    rw [hm] at hload
    rw [hload]
  · intro bindings hb
    rw [hb] at hload
    rw [hload]

/-- C9 witness: loading the raising sample script leaves the flag `True`;
loading under the normally-returning script behavior leaves it `False`. -/
theorem C9_dont_write_bytecode_restored_only_on_success_witness :
    (Namespace.load_file_as_namespace sampleSt sampleClone "/tmp/t"
      raisingSem "ex.py").st.dont_write_bytecode = true ∧
    (Namespace.load_file_as_namespace sampleSt sampleClone "/tmp/t"
      okSem "ex.py").st.dont_write_bytecode = false :=
  ⟨(C9_dont_write_bytecode_restored_only_on_success sampleSt sampleClone
      "/tmp/t" raisingSem "ex.py" "raise Exception" rfl (by decide)).1
      "boom" rfl,
   (C9_dont_write_bytecode_restored_only_on_success sampleSt sampleClone
      "/tmp/t" okSem "ex.py" "raise Exception" rfl (by decide)).2
      [] rfl⟩

/-- C4 counterexample: executing the sample script raises `"boom"`, and the
load propagates exactly that raw exception — a value that is not a
ScriptExecutionFailure annotated with the offending script's path (the
source's `try` block has a `finally` but no `except`, so nothing wraps or
annotates the exception). -/
theorem C4_raw_exception_counterexample :
    (Namespace.load_file_as_namespace sampleSt sampleClone "/tmp/t"
      raisingSem "ex.py").result = .error (.raised "boom") ∧
    ¬ annotatedWithScriptPath (.raised "boom") "ex.py" := by
  constructor
  · rfl
  · rintro ⟨msg, hmsg⟩
    exact PyError.noConfusion hmsg

/-- C4 as amended: when the fetched script raises during its top-level
execution, the load fails with the raw script exception, unannotated with
the script path (no ScriptExecutionFailure wrapper exists in the code);
the `finally`-block cleanup still runs: the search path is restored and the
module registry is purged of helper-module keys. -/
theorem C4_exec_error_propagates_raw (st : SysState) (c : CloneHandle)
    (tmpdir : String) (scriptSem : String → ExecEffect)
    (file_path py msg : String)
    (hpy : c.remote.lookup file_path = some py)
    (hh : ∀ q ∈ helperPaths, (c.remote.lookup q).isSome = true)
    (hm : (scriptSem py).outcome = .error msg) :
    ((Namespace.load_file_as_namespace st c tmpdir scriptSem
        file_path).result = .error (.raised msg)) ∧
    (¬ annotatedWithScriptPath (.raised msg) file_path) ∧
    ((Namespace.load_file_as_namespace st c tmpdir scriptSem
        file_path).st.syspath = st.syspath) ∧
    (∀ k ∈ (Namespace.load_file_as_namespace st c tmpdir scriptSem
        file_path).st.modules, isExerciseUtilsKey k = false) := by
  obtain ⟨c2, hload⟩ :=
    load_reached_exec st c tmpdir scriptSem file_path py hpy hh
  rw [hm] at hload
  refine ⟨by rw [hload], ?_, by rw [hload], ?_⟩
  · rintro ⟨msg2, hmsg⟩
    exact PyError.noConfusion hmsg
  · rw [hload]
    exact purge_no_eu _

/-- C4 amended witness: the concrete raising load propagates the raw
`"boom"` exception while restoring the search path and purging the
registry. -/
theorem C4_exec_error_propagates_raw_witness :
    ((Namespace.load_file_as_namespace sampleSt sampleClone "/tmp/t"
        raisingSem "ex.py").result = .error (.raised "boom")) ∧
    (¬ annotatedWithScriptPath (.raised "boom") "ex.py") ∧
    ((Namespace.load_file_as_namespace sampleSt sampleClone "/tmp/t"
        raisingSem "ex.py").st.syspath = sampleSt.syspath) ∧
    (∀ k ∈ (Namespace.load_file_as_namespace sampleSt sampleClone "/tmp/t"
        raisingSem "ex.py").st.modules, isExerciseUtilsKey k = false) :=
  C4_exec_error_propagates_raw sampleSt sampleClone "/tmp/t" raisingSem
    "ex.py" "raise Exception" "boom" rfl (by decide) rfl

end Gitmastery
